import Mathlib

/-!
Verification of the mfcs-bench execution-and-analysis engine
(`src/mfcs_bench/core/processor.py`, class `BenchmarkProcessor`) against its
natural-language specification.

The runtime analysis path of the repository is
`BenchmarkProcessor.async_process_app` → `_parse_responses` /
stream collection → `_analyze_responses`.  Those functions are embedded
below as executable Lean definitions.  Machine reals (Python floats) are
modelled by `ℚ`: every accuracy value the code can produce is
`s/m * 100` with `m ∈ {1, 2}` and `s ≤ m`, i.e. one of `0`, `50`, `100`,
all exactly representable in binary floating point, so `ℚ` is faithful.
Python dicts parsed from JSON are modelled by structures whose optional
fields are `Option`s; a JSON value that is present but of the wrong shape
(e.g. a non-dict `tool_call`) behaves in the code exactly like an absent
one (every access is guarded by `isinstance(..., dict)`), and is modelled
accordingly.
-/

/-- Token usage pair, mirroring the `TokenUsage` TypedDict of
`processor.py` (lines 29-31): `{"prompt": int, "completion": int}`. -/
structure TokenUsage where
  prompt : Int
  completion : Int
deriving DecidableEq, Repr

/-- Componentwise sum of two token-usage pairs. -/
def tuAdd (a b : TokenUsage) : TokenUsage :=
  ⟨a.prompt + b.prompt, a.completion + b.completion⟩

/-- Usage object of an event record: the values read by the analyzer via
`usage.get("prompt_tokens", 0)` and `usage.get("completion_tokens", 0)`
(processor.py lines 417-430); a missing key is already folded into the
default `0` here. -/
structure Usage where
  prompt_tokens : Int
  completion_tokens : Int
deriving DecidableEq, Repr

/-- Tool-call object of an event record.  The analyzer reads only
`tool_call.get("name", "")` (processor.py line 394); the remaining keys
(`instructions`, `call_id`, `arguments`) are never inspected. -/
structure ToolCall where
  name : String
deriving DecidableEq, Repr

/-- Choice-delta object of an event record: `choice_delta.get("content")`
(processor.py line 403).  A `choice_delta` that is present but not a dict
sets the streaming flag and contributes no content, which coincides with
`{ content := none }`. -/
structure ChoiceDelta where
  content : Option String
deriving DecidableEq, Repr

/-- One parsed JSON event record (a Python dict), restricted to the keys
the analyzer reads (processor.py lines 385-423).  String-valued keys that
are read with a `""` default and tested for truthiness (`content`,
`reasoning_content`, `tool_call.name`) are modelled as `String` with `""`
meaning absent-or-empty — the code cannot distinguish the two. -/
structure Response where
  model : Option String := none
  tool_call : Option ToolCall := none
  content : String := ""
  reasoning_content : String := ""
  choice_delta : Option ChoiceDelta := none
  usage : Option Usage := none
deriving DecidableEq, Repr

/-- An element of the `responses` list handed to `_analyze_responses`.
`json.loads` can yield values that are not objects (numbers, strings,
lists); the analyzer skips those via `isinstance(response, dict)`
(processor.py lines 379-381), so they are kept abstract as `nonDict`. -/
inductive ResponseItem where
  | obj (r : Response)
  | nonDict
deriving DecidableEq, Repr

/-- The `expected_output` object of a test case.  `contains_tool = some t`
models the key being present with value `t`; `semantic_match = some s`
models the key being present with `str(value) = s`. -/
structure ExpectedOutput where
  contains_tool : Option String := none
  semantic_match : Option String := none
deriving DecidableEq, Repr

/-- A test case as read by the analyzer: its `expected_output` object
(`test_case.get("expected_output", {})`, processor.py line 366, an absent
key degrading to the empty object) and its declared `model` (read only by
the runner's fallback accessors). -/
structure TestCase where
  model : Option String := none
  expected_output : ExpectedOutput := {}
deriving DecidableEq, Repr

/-- The empty test case `{}` produced when loading fails
(processor.py lines 196, 329). -/
def emptyTestCase : TestCase := {}

/-- Analysis record, mirroring the `Analysis` TypedDict of `processor.py`
(lines 33-41) as populated by `_analyze_responses`. -/
structure Analysis where
  tool_usage : String
  required_content : String
  semantic_match : String
  accuracy : ℚ
  response_time : ℚ
  token_usage : TokenUsage
  success : Bool
  model : String
deriving DecidableEq, Repr

/-- Accumulator of the event loop of `_analyze_responses`
(processor.py lines 372-376 plus the `analysis["model"]` cell of the
copied default dict). -/
structure LoopState where
  model : String
  actual_tool_used : String
  is_stream : Bool
  token_usage : TokenUsage
  final_usage : Option Usage
  combined_content : List String
deriving DecidableEq, Repr

/-- Loop accumulator at entry: `analysis["model"]` starts at the default
`"unspecified"`, `actual_tool_used = "none"`, `is_stream = False`,
`token_usage = {"prompt": 0, "completion": 0}`, `final_usage = None`,
`combined_content = []` (processor.py lines 46-55 and 372-376). -/
def initLoopState : LoopState :=
  { model := "unspecified", actual_tool_used := "none", is_stream := false,
    token_usage := ⟨0, 0⟩, final_usage := none, combined_content := [] }

/-- Text fragments one response object contributes to the combined
content buffer, in source order: non-empty `content`, then non-empty
`reasoning_content`, then non-empty `choice_delta.content`
(processor.py lines 399-410). -/
def fragsOfResponse (r : Response) : List String :=
  (if r.content = "" then [] else [r.content]) ++
  (if r.reasoning_content = "" then [] else [r.reasoning_content]) ++
  (match r.choice_delta with
   | some cd =>
       match cd.content with
       | some d => if d = "" then [] else [d]
       | none => []
   | none => [])

/-- Text fragments of a response-list element; non-dict elements are
skipped and contribute nothing. -/
def fragsOf : ResponseItem → List String
  | .obj r => fragsOfResponse r
  | .nonDict => []

/-- One iteration of the `for idx, response in enumerate(responses)` loop
of `_analyze_responses` (processor.py lines 378-423).  A non-dict element
is skipped (`continue`).  For a dict: the last truthy `model` wins; the
last truthy `tool_call.name` wins; truthy text fragments are appended to
the combined buffer; a present `choice_delta` (line 413) sets `is_stream`
before `usage` is examined (line 417); a dict `usage` always becomes
`final_usage` and is additionally summed into `token_usage` when
`is_stream` already holds at that point. -/
def stepResp (st : LoopState) : ResponseItem → LoopState
  | .nonDict => st
  | .obj r =>
    let model' := match r.model with
      | some m => if m = "" then st.model else m
      | none => st.model
    let tool' := match r.tool_call with
      | some t => if t.name = "" then st.actual_tool_used else t.name
      | none => st.actual_tool_used
    let stream' := st.is_stream || r.choice_delta.isSome
    let final' := match r.usage with
      | some u => some u
      | none => st.final_usage
    let tu' := match r.usage with
      | some u =>
          if stream' then
            ⟨st.token_usage.prompt + u.prompt_tokens,
             st.token_usage.completion + u.completion_tokens⟩
          else st.token_usage
      | none => st.token_usage
    { model := model', actual_tool_used := tool', is_stream := stream',
      token_usage := tu', final_usage := final',
      combined_content := st.combined_content ++ fragsOfResponse r }

/-- Full event loop of `_analyze_responses`: left fold of `stepResp` over
the responses from the initial accumulator. -/
def collectState (rs : List ResponseItem) : LoopState :=
  rs.foldl stepResp initLoopState

/-- Final token accounting of `_analyze_responses`
(processor.py lines 425-430), with the aliasing of the shallow
`DEFAULT_ANALYSIS.copy()` made explicit.  `tu0` is the current value of
the shared `DEFAULT_ANALYSIS["token_usage"]` dict, which the fresh
`analysis` dict still aliases.  Result: the `token_usage` reported in the
analysis, and the value of the shared dict afterwards.  Streaming rebinds
the key to a private copy of the summed accumulator (shared dict
untouched); non-streaming with a final usage writes the final values
*into the shared dict in place*; otherwise the aliased shared value is
reported unchanged. -/
def tokenOut (tu0 : TokenUsage) (st : LoopState) : TokenUsage × TokenUsage :=
  if st.is_stream then (st.token_usage, tu0)
  else
    match st.final_usage with
    | some u => (⟨u.prompt_tokens, u.completion_tokens⟩,
                 ⟨u.prompt_tokens, u.completion_tokens⟩)
    | none => (tu0, tu0)

/-- Semantic-match verdict (processor.py lines 434-446): absent key gives
the untouched default `"none"`; present key with
`expected_match = str(value)` gives `"yes"` iff `expected_match` is
truthy and the scorer accepts, short-circuiting exactly like
`if expected_match and self.semantic_match_by_embedding(...)`. -/
def semanticVerdict (scorer : String → String → Bool)
    (eo : ExpectedOutput) (allContent : String) : String :=
  match eo.semantic_match with
  | none => "none"
  | some em => if em = "" then "no" else if scorer em allContent then "yes" else "no"

/-- Tool-usage verdict (processor.py lines 448-457). -/
def toolVerdict (eo : ExpectedOutput) (actual_tool_used : String) : String :=
  match eo.contains_tool with
  | none => "none"
  | some et =>
      if actual_tool_used = "none" then "no"
      else if actual_tool_used = et then actual_tool_used
      else "no"

/-- The `metrics_to_compare` counter (processor.py lines 462-476): one
for a present `contains_tool` key, one for a present `semantic_match` key
whose stringified value differs from `"none"`. -/
def metricsCount (eo : ExpectedOutput) : ℕ :=
  (if eo.contains_tool.isSome then 1 else 0) +
  (match eo.semantic_match with
   | some em => if em = "none" then 0 else 1
   | none => 0)

/-- The `successful_metrics` counter (processor.py lines 463-481), a
function of the expectations and the two verdicts. -/
def successCount (eo : ExpectedOutput) (toolv semv : String) : ℕ :=
  (if eo.contains_tool.isSome ∧ toolv ≠ "no" then 1 else 0) +
  (match eo.semantic_match with
   | some em => if em ≠ "none" ∧ semv = "yes" then 1 else 0
   | none => 0)

/-- Embedding of `BenchmarkProcessor._analyze_responses`
(processor.py lines 346-503).  `scorer` abstracts the injected similarity
backend `self.semantic_match_by_embedding` (the `SentenceTransformer`
encoder is an external collaborator).  `tu0` is the value of the shared
`DEFAULT_ANALYSIS["token_usage"]` dict at call time; the second component
of the result is its value after the call (see `tokenOut`).  A `None`
test case degrades to `{}` (lines 361-362), which the `TestCase`
structure already represents; a `None` responses argument degrades to
`[]`. -/
def analyze_responses (scorer : String → String → Bool) (tu0 : TokenUsage)
    (rs : List ResponseItem) (tc : TestCase) : Analysis × TokenUsage :=
  let st := collectState rs
  let tus := tokenOut tu0 st
  let semv := semanticVerdict scorer tc.expected_output
    (String.join st.combined_content)
  let toolv := toolVerdict tc.expected_output st.actual_tool_used
  let m := metricsCount tc.expected_output
  let s := successCount tc.expected_output toolv semv
  let acc : ℚ := if 0 < m then ((s : ℚ) / (m : ℚ)) * 100 else 100
  ({ tool_usage := toolv, required_content := "none", semantic_match := semv,
     accuracy := acc, response_time := 0, token_usage := tus.1,
     success := decide (acc = 100), model := st.model }, tus.2)

/-- ASCII case folding of a character to its code, mapping `A`-`Z` to
the code of the corresponding lowercase letter. -/
def lowerCode (c : Char) : ℕ :=
  if 65 ≤ c.toNat ∧ c.toNat ≤ 90 then c.toNat + 32 else c.toNat

/-- Containment of `needle` as a contiguous run inside `hay`. -/
def containsSub (needle : List ℕ) : List ℕ → Bool
  | [] => needle.isEmpty
  | c :: t => needle.isPrefixOf (c :: t) || containsSub needle t

/-- The substring scoring strategy named by the specification:
case-insensitive (ASCII case folding) substring containment of the
expected phrase in the actual text. -/
def substring_scorer (expected actual : String) : Bool :=
  containsSub (expected.toList.map lowerCode) (actual.toList.map lowerCode)

/-- Default similarity threshold `DEFAULT_EMBEDDING_THRESHOLD = 0.45`
(processor.py line 61). -/
def DEFAULT_EMBEDDING_THRESHOLD : ℚ := 45 / 100

/-- Embedding of `BenchmarkProcessor.semantic_match_by_embedding`
(processor.py lines 505-511) with the opaque cosine-similarity backend
abstracted as `sim`: the verdict is `sim expected actual ≥ threshold`. -/
def semantic_match_by_embedding (sim : String → String → ℚ)
    (threshold : ℚ) (expected actual : String) : Bool :=
  decide (sim expected actual ≥ threshold)

/-- Whitespace characters removed by Python `str.strip()`. -/
def pyWhitespace (c : Char) : Bool :=
  c = ' ' || c = '\t' || c = '\n' || c = '\r' || c = '\x0b' || c = '\x0c'

/-- Model of Python `str.strip()` with no arguments: drop leading and
trailing whitespace. -/
def pyStrip (s : String) : String :=
  ⟨(((s.data.dropWhile pyWhitespace).reverse).dropWhile pyWhitespace).reverse⟩

/-- Splitting of a character list at every occurrence of a separator. -/
def splitOnChar (sep : Char) : List Char → List (List Char)
  | [] => [[]]
  | c :: t =>
      if c = sep then [] :: splitOnChar sep t
      else
        match splitOnChar sep t with
        | [] => [[c]]
        | h :: r => (c :: h) :: r

/-- Model of Python `str.splitlines()` for `\n`-separated text.  Python
omits the final empty piece after a trailing newline while this
definition keeps it; both consumers below discard blank pieces, so the
two are interchangeable there. -/
def splitLinesLF (s : String) : List String :=
  (splitOnChar '\n' s.data).map fun l => (⟨l⟩ : String)

/-- Embedding of `BenchmarkProcessor._parse_responses`
(processor.py lines 295-318), parametric in the external JSON decoder
`jsonLoads` (Python's `json.loads`, returning `none` on a decode error).
Empty (after stripping) output yields `[]` without consulting the
decoder; otherwise the whole stripped text is tried as one document, and
on failure each line is stripped, blank lines skipped, and lines that
fail to decode silently dropped. -/
def parse_responses {α : Type} (jsonLoads : String → Option α)
    (stdout : String) : List α :=
  if pyStrip stdout = "" then []
  else
    match jsonLoads (pyStrip stdout) with
    | some r => [r]
    | none =>
        (splitLinesLF stdout).filterMap fun line =>
          if pyStrip line = "" then none else jsonLoads (pyStrip line)

/-- Streaming collection loop of `async_process_app`
(processor.py lines 124-136): each raw line that arrived before the
deadline is stripped; non-blank lines that decode are appended to the
event list in arrival order, failures are skipped. -/
def streamParse {α : Type} (jsonLoads : String → Option α)
    (arrived : List String) : List α :=
  arrived.filterMap fun line =>
    if pyStrip line = "" then none else jsonLoads (pyStrip line)

/-- Data produced by the `try` block of `async_process_app` up to the
analysis step, abstracting the process and clock effects:
`arrived_lines` are the raw stdout lines the streaming reader consumed
before the deadline, `timed_out` records whether the deadline fired (in
which case the code kills the process — an effect outside the returned
data), `nonstream_stdout` is the decoded `communicate()` output of the
non-streaming branch (`""` when that branch timed out, lines 157-161),
and `test_case` is the result of `_load_test_case`. -/
structure OkData where
  arrived_lines : List String
  timed_out : Bool
  nonstream_stdout : String
  stderr_text : String
  return_code : Int
  test_case : TestCase
deriving Repr

/-- Analysis dict built inline by the exception handler of
`async_process_app` (processor.py lines 203-211).  Its shape differs
from `DEFAULT_ANALYSIS`: `required_content` is the boolean `False`,
`semantic_match` is `"no"`, and there is no `success` key. -/
structure ErrorAnalysis where
  tool_usage : String
  required_content : Bool
  semantic_match : String
  accuracy : ℚ
  response_time : ℚ
  token_usage : TokenUsage
  model : String
deriving DecidableEq, Repr

/-- The literal analysis value of the exception handler. -/
def error_analysis : ErrorAnalysis :=
  { tool_usage := "none", required_content := false, semantic_match := "no",
    accuracy := 0, response_time := 0, token_usage := ⟨0, 0⟩,
    model := "unspecified" }

/-- Analysis slot of a run result: a normal `Analysis` from
`_analyze_responses`, or the handler's literal dict. -/
inductive AnalysisResult where
  | ok (a : Analysis)
  | failed (a : ErrorAnalysis)
deriving Repr

/-- Run-result dict of `async_process_app` (processor.py lines 176-193
for the normal path, 197-214 for the exception path).  Keys present in
only one of the two dict literals are `Option`s (`error` exists only on
failure; `stdout`, `stderr` and `return_code` only on success). -/
structure RunResult where
  app_name : String
  success : Bool
  error : Option String
  stdout : Option String
  stderr : Option String
  execution_time : ℚ
  return_code : Option Int
  is_stream : Bool
  analysis : AnalysisResult
  test_case : TestCase
  responses : List ResponseItem
deriving Repr

/-- Embedding of `BenchmarkProcessor.async_process_app`
(processor.py lines 80-214).  Effects are abstracted at their
interfaces: `jsonLoads` is the JSON decoder, `scorer` the similarity
backend, `tu0` the shared `DEFAULT_ANALYSIS["token_usage"]` value at
entry, `is_stream_cfg` the `app_config.get("stream", False)` flag (read
before the `try`, line 92), `outcome` the result of the subprocess
interaction (`Except.error e` models any exception raised inside the
`try`, with `e = str(exception)`), and `elapsed` the measured wall-clock
difference.  The second component is the shared token-usage dict value
after the call. -/
def async_process_app (jsonLoads : String → Option ResponseItem)
    (scorer : String → String → Bool) (tu0 : TokenUsage)
    (app_name : String) (is_stream_cfg : Bool)
    (outcome : Except String OkData) (elapsed : ℚ) :
    RunResult × TokenUsage :=
  match outcome with
  | .ok d =>
      let collected :=
        if is_stream_cfg then
          (String.join d.arrived_lines, streamParse jsonLoads d.arrived_lines)
        else
          (d.nonstream_stdout, parse_responses jsonLoads d.nonstream_stdout)
      let ana := analyze_responses scorer tu0 collected.2 d.test_case
      ({ app_name := app_name, success := ana.1.success, error := none,
         stdout := some collected.1, stderr := some d.stderr_text,
         execution_time := elapsed, return_code := some d.return_code,
         is_stream := is_stream_cfg, analysis := .ok ana.1,
         test_case := d.test_case, responses := collected.2 }, ana.2)
  | .error e =>
      ({ app_name := app_name, success := false, error := some e,
         stdout := none, stderr := none, execution_time := elapsed,
         return_code := none, is_stream := is_stream_cfg,
         analysis := .failed error_analysis, test_case := emptyTestCase,
         responses := [] }, tu0)

/-- Specification-level description of one event's tool-name
contribution: the `tool_call.name` when it is a present, non-empty
string. -/
def toolOf : ResponseItem → Option String
  | .obj r =>
      match r.tool_call with
      | some t => if t.name = "" then none else some t.name
      | none => none
  | .nonDict => none

/-- Specification-level "last non-empty tool name seen": the rightmost
event whose `tool_call.name` is non-empty. -/
def lastToolName : List ResponseItem → Option String
  | [] => none
  | i :: t =>
      match lastToolName t with
      | some n => some n
      | none => toolOf i

/-- Specification-level description of one event's model contribution. -/
def modelOf : ResponseItem → Option String
  | .obj r =>
      match r.model with
      | some m => if m = "" then none else some m
      | none => none
  | .nonDict => none

/-- Specification-level "last non-empty model seen". -/
def lastModelName : List ResponseItem → Option String
  | [] => none
  | i :: t =>
      match lastModelName t with
      | some n => some n
      | none => modelOf i

/-- Usage object of an event, when it is a present dict. -/
def usageOf : ResponseItem → Option Usage
  | .obj r => r.usage
  | .nonDict => none

/-- Specification-level "last usage object seen". -/
def lastUsage : List ResponseItem → Option Usage
  | [] => none
  | i :: t =>
      match lastUsage t with
      | some u => some u
      | none => usageOf i

/-- Whether an event carries a `choice_delta` field (marking the run as
streaming). -/
def hasDelta : ResponseItem → Bool
  | .obj r => r.choice_delta.isSome
  | .nonDict => false

/-- Whether any event of the sequence carries a `choice_delta`. -/
def anyDelta (rs : List ResponseItem) : Bool := rs.any hasDelta

/-- Specification-level streaming token sum, starting from streaming
flag `flag`: an event's usage is counted iff the flag holds after this
event's own `choice_delta` has been taken into account (the code sets
`is_stream` before reading `usage` within one iteration). -/
def streamUsageSumAux (flag : Bool) : List ResponseItem → TokenUsage
  | [] => ⟨0, 0⟩
  | .nonDict :: t => streamUsageSumAux flag t
  | .obj r :: t =>
      let flag' := flag || r.choice_delta.isSome
      let rest := streamUsageSumAux flag' t
      match r.usage with
      | some u =>
          if flag' then
            ⟨u.prompt_tokens + rest.prompt, u.completion_tokens + rest.completion⟩
          else rest
      | none => rest

/-- Sum of `prompt_tokens`/`completion_tokens` over *every*
usage-bearing event of the sequence (the quantity the specification
claims is reported in streaming mode). -/
def sumAllUsage : List ResponseItem → TokenUsage
  | [] => ⟨0, 0⟩
  | i :: t =>
      let rest := sumAllUsage t
      match usageOf i with
      | some u =>
          ⟨u.prompt_tokens + rest.prompt, u.completion_tokens + rest.completion⟩
      | none => rest

/-- Specification-level combined text buffer: the order-preserving
concatenation of every non-empty `content`, `reasoning_content` and
`choice_delta.content` fragment across the events. -/
def combinedSpec (rs : List ResponseItem) : String :=
  String.join (rs.flatMap fragsOf)

/-- The combined text buffer actually built and used by
`_analyze_responses` (the `"".join(combined_content)` of line 437). -/
def analyzerBuffer (rs : List ResponseItem) : String :=
  String.join (collectState rs).combined_content

/-- Number of active expectations of a test case, as the specification
counts them: a present `contains_tool` key, plus a present
`semantic_match` key whose value (as a string) is not `"none"`. -/
def totalActive (tc : TestCase) : ℕ := metricsCount tc.expected_output

/-- Number of active expectations of a test case that resolved to a
passing verdict in an analysis: a present tool expectation whose verdict
is not `"no"`, plus an active semantic expectation whose verdict is
`"yes"`. -/
def passedCount (tc : TestCase) (a : Analysis) : ℕ :=
  successCount tc.expected_output a.tool_usage a.semantic_match

/-- Joining a concatenation of fragment lists concatenates the joins. -/
theorem join_append (a b : List String) :
    String.join (a ++ b) = String.join a ++ String.join b := by
  apply String.ext
  simp [String.join_eq]

/-- The loop appends exactly the fragments of each processed event to the
combined content buffer, in order. -/
theorem foldl_combined (l : List ResponseItem) (s : LoopState) :
    (l.foldl stepResp s).combined_content
      = s.combined_content ++ l.flatMap fragsOf := by
  induction l generalizing s with
  | nil => simp
  | cons i t ih =>
    cases i with
    | obj r => simp [stepResp, ih, fragsOf, List.append_assoc]
    | nonDict => simp [stepResp, ih, fragsOf]

/-- The loop's streaming flag is the disjunction of the incoming flag and
the presence of a `choice_delta` on any processed event. -/
theorem foldl_is_stream (l : List ResponseItem) (s : LoopState) :
    (l.foldl stepResp s).is_stream = (s.is_stream || anyDelta l) := by
  induction l generalizing s with
  | nil => simp [anyDelta]
  | cons i t ih =>
    cases i with
    | obj r =>
      simp [stepResp, ih, anyDelta, hasDelta, Bool.or_assoc]
    | nonDict => simp [stepResp, ih, anyDelta, hasDelta]

/-- The loop's accumulated tool name is the last non-empty
`tool_call.name` of the processed events, defaulting to the incoming
accumulator value. -/
theorem foldl_tool (l : List ResponseItem) (s : LoopState) :
    (l.foldl stepResp s).actual_tool_used
      = (lastToolName l).getD s.actual_tool_used := by
  induction l generalizing s with
  | nil => simp [lastToolName]
  | cons i t ih =>
    have hstep : (stepResp s i).actual_tool_used
        = (toolOf i).getD s.actual_tool_used := by
      cases i with
      | obj r =>
        simp only [stepResp, toolOf]
        cases r.tool_call with
        | none => rfl
        | some tcall =>
          by_cases h : tcall.name = "" <;> simp [h]
      | nonDict => rfl
    rw [List.foldl_cons, ih, hstep, lastToolName]
    cases lastToolName t <;> simp

/-- The loop's accumulated model is the last non-empty `model` of the
processed events, defaulting to the incoming accumulator value. -/
theorem foldl_model (l : List ResponseItem) (s : LoopState) :
    (l.foldl stepResp s).model = (lastModelName l).getD s.model := by
  induction l generalizing s with
  | nil => simp [lastModelName]
  | cons i t ih =>
    have hstep : (stepResp s i).model = (modelOf i).getD s.model := by
      cases i with
      | obj r =>
        simp only [stepResp, modelOf]
        cases r.model with
        | none => rfl
        | some m => by_cases h : m = "" <;> simp [h]
      | nonDict => rfl
    rw [List.foldl_cons, ih, hstep, lastModelName]
    cases lastModelName t <;> simp

/-- The loop's `final_usage` is the last usage object of the processed
events, defaulting to the incoming accumulator value. -/
theorem foldl_final_usage (l : List ResponseItem) (s : LoopState) :
    (l.foldl stepResp s).final_usage = (lastUsage l).or s.final_usage := by
  induction l generalizing s with
  | nil => simp [lastUsage]
  | cons i t ih =>
    have hstep : (stepResp s i).final_usage = (usageOf i).or s.final_usage := by
      cases i with
      | obj r =>
        simp only [stepResp, usageOf]
        cases r.usage <;> rfl
      | nonDict => rfl
    rw [List.foldl_cons, ih, hstep, lastUsage]
    cases lastUsage t <;> cases usageOf i <;> simp [Option.or]

/-- The loop's token accumulator adds, on top of its incoming value, the
streaming usage sum of the processed events started from the incoming
streaming flag. -/
theorem foldl_token (l : List ResponseItem) (s : LoopState) :
    (l.foldl stepResp s).token_usage
      = tuAdd s.token_usage (streamUsageSumAux s.is_stream l) := by
  induction l generalizing s with
  | nil => simp [streamUsageSumAux, tuAdd]
  | cons i t ih =>
    cases i with
    | nonDict =>
      rw [List.foldl_cons]
      show (t.foldl stepResp s).token_usage = _
      rw [ih, streamUsageSumAux]
    | obj r =>
      rw [List.foldl_cons, ih]
      have hs : (stepResp s (.obj r)).is_stream
          = (s.is_stream || r.choice_delta.isSome) := rfl
      rw [hs]
      show tuAdd (stepResp s (.obj r)).token_usage _ = _
      have htu : (stepResp s (.obj r)).token_usage
          = (match r.usage with
             | some u =>
                 if s.is_stream || r.choice_delta.isSome then
                   ⟨s.token_usage.prompt + u.prompt_tokens,
                    s.token_usage.completion + u.completion_tokens⟩
                 else s.token_usage
             | none => s.token_usage) := rfl
      rw [htu, streamUsageSumAux]
      cases r.usage with
      | none => rfl
      | some u =>
        by_cases h : (s.is_stream || r.choice_delta.isSome) = true
        · simp only [h, if_pos, tuAdd]
          congr 1 <;> ring
        · simp [h, tuAdd]

/-- The buffer built by the analyzer loop is the specification-level
concatenation of all fragments. -/
theorem analyzerBuffer_eq (rs : List ResponseItem) :
    analyzerBuffer rs = combinedSpec rs := by
  unfold analyzerBuffer combinedSpec collectState
  rw [foldl_combined]
  simp [initLoopState]

/-- Claim C5 (confirmed): for every event sequence, the combined text
buffer used for semantic matching is the order-preserving concatenation
of every non-null `content`, `reasoning_content` and
`choice_delta.content` fragment across the events, and for every split
index `k` the buffer of the whole list equals the buffer of the first
`k` events concatenated with the buffer of the rest. -/
theorem c5_combined_buffer (rs : List ResponseItem) (k : ℕ) :
    (∀ (scorer : String → String → Bool) (tu0 : TokenUsage) (tc : TestCase),
      (analyze_responses scorer tu0 rs tc).1.semantic_match
        = semanticVerdict scorer tc.expected_output (analyzerBuffer rs))
  ∧ analyzerBuffer rs = combinedSpec rs
  ∧ analyzerBuffer rs = analyzerBuffer (rs.take k) ++ analyzerBuffer (rs.drop k) := by
  refine ⟨fun _ _ _ => rfl, analyzerBuffer_eq rs, ?_⟩
  rw [analyzerBuffer_eq, analyzerBuffer_eq, analyzerBuffer_eq]
  unfold combinedSpec
  rw [← join_append, ← List.flatMap_append, List.take_append_drop]

/-- The sublist of actual JSON objects among the responses. -/
def dictsOnly (rs : List ResponseItem) : List ResponseItem :=
  rs.filter fun i => match i with | .obj _ => true | .nonDict => false

/-- Folding the loop over a list is the same as folding it over the
sublist of dict elements: non-dict elements are skipped. -/
theorem foldl_dictsOnly (l : List ResponseItem) (s : LoopState) :
    l.foldl stepResp s = (dictsOnly l).foldl stepResp s := by
  induction l generalizing s with
  | nil => rfl
  | cons i t ih =>
    cases i with
    | obj r => simpa [dictsOnly] using ih (stepResp s (.obj r))
    | nonDict => simpa [dictsOnly] using ih s

/-- Claim C10 (confirmed): `_analyze_responses` never fails on non-dict
elements; they are skipped, and the whole result (reported analysis and
shared token-usage state alike) equals that of the same list with the
non-dict elements removed. -/
theorem c10_nondict_skipped (scorer : String → String → Bool)
    (tu0 : TokenUsage) (rs : List ResponseItem) (tc : TestCase) :
    analyze_responses scorer tu0 rs tc
      = analyze_responses scorer tu0 (dictsOnly rs) tc := by
  unfold analyze_responses collectState
  rw [foldl_dictsOnly]

/-- Claim C1 (confirmed): the analyzer's accuracy is
`passed/total * 100` over the active expectations with `100` when no
expectation is active, one passing expectation out of two active ones
yields `50`, a test case with no expectations is trivially accurate and
successful regardless of event content, and `success` holds exactly when
the accuracy is `100`. -/
theorem c1_accuracy (scorer : String → String → Bool) (tu0 : TokenUsage)
    (rs : List ResponseItem) (tc : TestCase) :
    (analyze_responses scorer tu0 rs tc).1.accuracy
      = (if 0 < totalActive tc then
          ((passedCount tc (analyze_responses scorer tu0 rs tc).1 : ℚ)
            / (totalActive tc : ℚ)) * 100
         else 100)
  ∧ ((analyze_responses scorer tu0 rs tc).1.success = true
      ↔ (analyze_responses scorer tu0 rs tc).1.accuracy = 100)
  ∧ (totalActive tc = 0 →
      (analyze_responses scorer tu0 rs tc).1.accuracy = 100
      ∧ (analyze_responses scorer tu0 rs tc).1.success = true)
  ∧ (totalActive tc = 2 →
      passedCount tc (analyze_responses scorer tu0 rs tc).1 = 1 →
      (analyze_responses scorer tu0 rs tc).1.accuracy = 50) := by
  have hacc1 : (analyze_responses scorer tu0 rs tc).1.accuracy
      = (if 0 < totalActive tc then
          ((passedCount tc (analyze_responses scorer tu0 rs tc).1 : ℚ)
            / (totalActive tc : ℚ)) * 100
         else 100) := rfl
  have hiff : (analyze_responses scorer tu0 rs tc).1.success = true
      ↔ (analyze_responses scorer tu0 rs tc).1.accuracy = 100 := by
    show decide _ = true ↔ _
    exact decide_eq_true_iff
  refine ⟨hacc1, hiff, ?_, ?_⟩
  · intro h0
    have hacc : (analyze_responses scorer tu0 rs tc).1.accuracy = 100 := by
      rw [hacc1, h0]
      norm_num
    exact ⟨hacc, hiff.mpr hacc⟩
  · intro h2 h1
    rw [hacc1, h2, h1]
    norm_num

/-- Concrete test case with both expectations active. -/
def c1W_tc : TestCase :=
  { expected_output := { contains_tool := some "get_weather",
                         semantic_match := some "hello" } }

/-- Concrete event list calling the expected tool and matching no text. -/
def c1W_rs : List ResponseItem := [.obj { tool_call := some ⟨"get_weather"⟩ }]

/-- Witness for C1: with no expectation the accuracy is 100, and with
exactly one of two active expectations passing it is 50. -/
theorem c1_accuracy_witness :
    (analyze_responses substring_scorer ⟨0, 0⟩ [] emptyTestCase).1.accuracy = 100
  ∧ (analyze_responses substring_scorer ⟨0, 0⟩ c1W_rs c1W_tc).1.accuracy = 50 :=
  ⟨((c1_accuracy substring_scorer ⟨0, 0⟩ [] emptyTestCase).2.2.1 (by decide)).1,
   (c1_accuracy substring_scorer ⟨0, 0⟩ c1W_rs c1W_tc).2.2.2 (by decide) (by decide)⟩

/-- Concrete test case expecting the tool named `none`. -/
def c3_tc : TestCase := { expected_output := { contains_tool := some "none" } }

/-- Concrete event sequence calling a tool literally named `none`. -/
def c3_events : List ResponseItem := [.obj { tool_call := some ⟨"none"⟩ }]

/-- Counterexample to claim C3 as stated: the expected tool is `"none"`
and an event calls a tool whose non-empty name is exactly `"none"` — the
names match, so the claim requires the verdict to be the tool name
itself (`"none"`) — yet the analyzer reports `"no"`, because the
accumulated name collides with the internal no-tool sentinel. -/
theorem c3_counterexample :
    c3_tc.expected_output.contains_tool = some "none"
  ∧ lastToolName c3_events = some "none"
  ∧ (analyze_responses substring_scorer ⟨0, 0⟩ c3_events c3_tc).1.tool_usage = "no"
  ∧ ("no" : String) ≠ "none" := by
  refine ⟨rfl, by decide, by decide, by decide⟩

/-- Claim C3 (amended): the analyzer accumulates the last non-empty tool
name; with `contains_tool` absent the verdict is `"none"`; with it
present the verdict is `"no"` when no tool was ever called, when the
accumulated name is literally `"none"` (indistinguishable from the
no-tool sentinel), or when it differs from the expected tool, and is the
tool name itself when the names match otherwise. -/
theorem c3_amended (scorer : String → String → Bool) (tu0 : TokenUsage)
    (rs : List ResponseItem) (tc : TestCase) :
    (tc.expected_output.contains_tool = none →
      (analyze_responses scorer tu0 rs tc).1.tool_usage = "none")
  ∧ (∀ et, tc.expected_output.contains_tool = some et →
      (analyze_responses scorer tu0 rs tc).1.tool_usage
        = match lastToolName rs with
          | none => "no"
          | some n => if n = "none" then "no" else if n = et then n else "no") := by
  have htool : (analyze_responses scorer tu0 rs tc).1.tool_usage
      = toolVerdict tc.expected_output ((lastToolName rs).getD "none") := by
    show toolVerdict tc.expected_output (collectState rs).actual_tool_used = _
    rw [collectState, foldl_tool]
    rfl
  constructor
  · intro h
    rw [htool]
    unfold toolVerdict
    rw [h]
  · intro et h
    rw [htool]
    unfold toolVerdict
    rw [h]
    cases hl : lastToolName rs with
    | none => simp
    | some n => simp only [Option.getD_some]

/-- Concrete test case and events for the C3 witness: the expected tool
`get_weather` is called under that exact name. -/
def c3W_tc : TestCase :=
  { expected_output := { contains_tool := some "get_weather" } }

/-- Concrete event sequence calling `get_weather`. -/
def c3W_rs : List ResponseItem := [.obj { tool_call := some ⟨"get_weather"⟩ }]

/-- Witness for the amended C3: on a matching call the verdict is the
tool name itself. -/
theorem c3_amended_witness :
    (analyze_responses substring_scorer ⟨0, 0⟩ c3W_rs c3W_tc).1.tool_usage
      = "get_weather" := by
  have h := (c3_amended substring_scorer ⟨0, 0⟩ c3W_rs c3W_tc).2 "get_weather" rfl
  rw [h]
  decide

/-- Concrete test case whose `semantic_match` expectation is the empty
string. -/
def c4_tc : TestCase := { expected_output := { semantic_match := some "" } }

/-- Counterexample to claim C4 as stated: with `semantic_match` present
and equal to `""`, the substring scorer deems the (empty) combined text
a match, yet the analyzer reports `"no"` — the truthiness guard
`if expected_match and ...` short-circuits before the scorer is
consulted, so the verdict is not `"yes"` exactly when the scorer deems
the text a match. -/
theorem c4_counterexample :
    c4_tc.expected_output.semantic_match = some ""
  ∧ substring_scorer "" (analyzerBuffer []) = true
  ∧ (analyze_responses substring_scorer ⟨0, 0⟩ [] c4_tc).1.semantic_match = "no"
  ∧ ("no" : String) ≠ "yes" := by
  refine ⟨rfl, by decide, by decide, by decide⟩

/-- Claim C4 (amended): with `expected_output.semantic_match` present,
the verdict is `"yes"` exactly when the expected value (as a string) is
non-empty and the configured scorer deems the combined text a match, and
`"no"` otherwise; with the key absent the verdict is `"none"`.  The
embedding strategy accepts exactly when the similarity is at least the
configured threshold, whose default is `0.45`. -/
theorem c4_amended (scorer : String → String → Bool) (tu0 : TokenUsage)
    (rs : List ResponseItem) (tc : TestCase) :
    (tc.expected_output.semantic_match = none →
      (analyze_responses scorer tu0 rs tc).1.semantic_match = "none")
  ∧ (∀ em, tc.expected_output.semantic_match = some em →
      (analyze_responses scorer tu0 rs tc).1.semantic_match
        = if em ≠ "" ∧ scorer em (combinedSpec rs) = true then "yes" else "no")
  ∧ (∀ sim th e a, semantic_match_by_embedding sim th e a
        = decide (sim e a ≥ th))
  ∧ DEFAULT_EMBEDDING_THRESHOLD = 45 / 100 := by
  have hsem : (analyze_responses scorer tu0 rs tc).1.semantic_match
      = semanticVerdict scorer tc.expected_output (combinedSpec rs) := by
    show semanticVerdict scorer tc.expected_output
        (String.join (collectState rs).combined_content) = _
    rw [show String.join (collectState rs).combined_content
        = analyzerBuffer rs from rfl, analyzerBuffer_eq]
  refine ⟨?_, ?_, fun _ _ _ _ => rfl, rfl⟩
  · intro h
    rw [hsem]
    unfold semanticVerdict
    rw [h]
  · intro em h
    rw [hsem]
    unfold semanticVerdict
    rw [h]
    by_cases he : em = ""
    · simp [he]
    · by_cases hs : scorer em (combinedSpec rs) = true
      · simp [he, hs]
      · simp [he, hs]

/-- Concrete test case expecting the phrase `hello`. -/
def c4W_tc : TestCase := { expected_output := { semantic_match := some "hello" } }

/-- Concrete event sequence whose content contains `Hello`. -/
def c4W_rs : List ResponseItem := [.obj { content := "well Hello there" }]

/-- Witness for the amended C4: a non-empty expected phrase that the
substring scorer finds in the combined text yields verdict `"yes"`. -/
theorem c4_amended_witness :
    (analyze_responses substring_scorer ⟨0, 0⟩ c4W_rs c4W_tc).1.semantic_match
      = "yes" := by
  have h := (c4_amended substring_scorer ⟨0, 0⟩ c4W_rs c4W_tc).2.1 "hello" rfl
  rw [h]
  rw [if_pos ⟨by decide, by decide⟩]

/-- Concrete event sequence: a usage-bearing event, then a streaming
chunk, then another usage-bearing event. -/
def c2_events : List ResponseItem :=
  [.obj { usage := some ⟨10, 5⟩ },
   .obj { choice_delta := some ⟨none⟩ },
   .obj { usage := some ⟨0, 7⟩ }]

/-- Counterexample to claim C2 as stated: an event carries
`choice_delta`, so the run is classified streaming, yet the reported
token usage is not the sum over every usage-bearing event — the usage
seen before the first `choice_delta` flipped the streaming flag is left
out of the sum. -/
theorem c2_counterexample :
    anyDelta c2_events = true
  ∧ sumAllUsage c2_events = ⟨10, 12⟩
  ∧ (analyze_responses substring_scorer ⟨0, 0⟩ c2_events
      emptyTestCase).1.token_usage = ⟨0, 7⟩
  ∧ (analyze_responses substring_scorer ⟨0, 0⟩ c2_events
      emptyTestCase).1.token_usage ≠ sumAllUsage c2_events := by
  refine ⟨by decide, by decide, by decide, by decide⟩

/-- Concrete streaming event pair whose chunks each carry both a
`choice_delta` and a usage object. -/
def c2_stream_events : List ResponseItem :=
  [.obj { choice_delta := some ⟨some "x"⟩, usage := some ⟨10, 5⟩ },
   .obj { choice_delta := some ⟨some "y"⟩, usage := some ⟨0, 7⟩ }]

/-- Concrete non-streaming event pair carrying only usage objects. -/
def c2_nonstream_events : List ResponseItem :=
  [.obj { usage := some ⟨10, 5⟩ }, .obj { usage := some ⟨0, 7⟩ }]

/-- Claim C2 (amended): if any event carries `choice_delta` the run is
classified streaming and the reported token usage is the sum of
`prompt_tokens` and `completion_tokens` over the usage-bearing events
from the first `choice_delta`-carrying event onward (usage seen while
the streaming flag is still off is not counted); otherwise the last
usage object seen is taken verbatim.  The claim's concrete example holds
when the two streaming usage chunks each carry a `choice_delta`:
`{10,5}` then `{0,7}` sum to `{10,12}` in streaming mode, while the same
two usage objects without any `choice_delta` yield the last one,
`{0,7}`. -/
theorem c2_amended (scorer : String → String → Bool) (tu0 : TokenUsage)
    (rs : List ResponseItem) (tc : TestCase) :
    (anyDelta rs = true →
      (analyze_responses scorer tu0 rs tc).1.token_usage
        = streamUsageSumAux false rs)
  ∧ (anyDelta rs = false → ∀ u, lastUsage rs = some u →
      (analyze_responses scorer tu0 rs tc).1.token_usage
        = ⟨u.prompt_tokens, u.completion_tokens⟩)
  ∧ (analyze_responses scorer tu0 c2_stream_events tc).1.token_usage = ⟨10, 12⟩
  ∧ (analyze_responses scorer tu0 c2_nonstream_events tc).1.token_usage = ⟨0, 7⟩ := by
  have key : ∀ rs' : List ResponseItem,
      (anyDelta rs' = true →
        (analyze_responses scorer tu0 rs' tc).1.token_usage
          = streamUsageSumAux false rs')
    ∧ (anyDelta rs' = false → ∀ u, lastUsage rs' = some u →
        (analyze_responses scorer tu0 rs' tc).1.token_usage
          = ⟨u.prompt_tokens, u.completion_tokens⟩) := by
    intro rs'
    have hst : (collectState rs').is_stream = anyDelta rs' := by
      rw [collectState, foldl_is_stream]
      rfl
    have htu : (collectState rs').token_usage = streamUsageSumAux false rs' := by
      rw [collectState, foldl_token]
      show tuAdd ⟨0, 0⟩ (streamUsageSumAux false rs')
          = streamUsageSumAux false rs'
      cases streamUsageSumAux false rs'
      simp [tuAdd]
    have hfu : (collectState rs').final_usage = lastUsage rs' := by
      rw [collectState, foldl_final_usage]
      cases lastUsage rs' <;> simp [Option.or, initLoopState]
    constructor
    · intro hd
      show (tokenOut tu0 (collectState rs')).1 = _
      unfold tokenOut
      rw [hst, hd, htu]
      simp
    · intro hd u hu
      show (tokenOut tu0 (collectState rs')).1 = _
      unfold tokenOut
      rw [hst, hd, hfu, hu]
      simp
  refine ⟨(key rs).1, (key rs).2, ?_, ?_⟩
  · rw [(key c2_stream_events).1 (by decide)]
    decide
  · exact (key c2_nonstream_events).2 (by decide) ⟨0, 7⟩ (by decide)

/-- Witness for the amended C2: the streaming sum and the verbatim last
usage at the concrete event pairs of the claim. -/
theorem c2_amended_witness :
    (analyze_responses substring_scorer ⟨0, 0⟩ c2_events
      emptyTestCase).1.token_usage = streamUsageSumAux false c2_events
  ∧ (analyze_responses substring_scorer ⟨3, 4⟩ c2_nonstream_events
      emptyTestCase).1.token_usage = ⟨0, 7⟩ :=
  ⟨(c2_amended substring_scorer ⟨0, 0⟩ c2_events emptyTestCase).1 (by decide),
   (c2_amended substring_scorer ⟨3, 4⟩ c2_nonstream_events emptyTestCase).2.1
     (by decide) ⟨0, 7⟩ (by decide)⟩

/-- The concrete stdout of the malformed-line scenario:
a valid JSON line, a garbage line, a valid JSON line, newline-separated. -/
def c6_input : String := "\x7b\"valid\":1\x7d\n<garbage>\n\x7b\"valid\":2\x7d\n"

/-- First valid line of the scenario. -/
def c6_line1 : String := "\x7b\"valid\":1\x7d"

/-- The garbage line of the scenario. -/
def c6_garbage : String := "<garbage>"

/-- Second valid line of the scenario. -/
def c6_line2 : String := "\x7b\"valid\":2\x7d"

/-- Claim C6 (confirmed): for any JSON decoder that rejects the whole
captured text and the garbage line but accepts the two valid lines,
`_parse_responses` returns exactly the two decoded events in emission
order with the garbage line silently dropped, and empty output yields an
empty event sequence rather than an error. -/
theorem c6_parse {α : Type} (jsonLoads : String → Option α) (e1 e2 : α)
    (hw : jsonLoads (pyStrip c6_input) = none)
    (h1 : jsonLoads (pyStrip c6_line1) = some e1)
    (hg : jsonLoads (pyStrip c6_garbage) = none)
    (h2 : jsonLoads (pyStrip c6_line2) = some e2) :
    parse_responses jsonLoads c6_input = [e1, e2]
  ∧ parse_responses jsonLoads "" = [] := by
  constructor
  · unfold parse_responses
    rw [if_neg (by decide), hw]
    rw [show splitLinesLF c6_input = [c6_line1, c6_garbage, c6_line2, ""]
        from by decide]
    simp only [List.filterMap_cons, List.filterMap_nil]
    rw [if_neg (by decide), if_neg (by decide), if_neg (by decide),
        if_pos (by decide)]
    rw [h1, hg, h2]
  · unfold parse_responses
    rw [if_pos (by decide)]

/-- Concrete decoder for the C6 witness, accepting exactly the two valid
lines of the scenario. -/
def c6W_decode : String → Option ℕ := fun s =>
  if s = c6_line1 then some 1 else if s = c6_line2 then some 2 else none

/-- Witness for C6 at the concrete decoder: the two valid events come
out in order and empty output parses to the empty sequence. -/
theorem c6_parse_witness :
    parse_responses c6W_decode c6_input = [1, 2]
  ∧ parse_responses c6W_decode "" = [] :=
  c6_parse c6W_decode 1 2 (by decide) (by decide) (by decide) (by decide)

/-- Claim C7 (confirmed): whatever exception message interrupts the run,
the runner returns — instead of propagating — a run result with
`success = false`, the `error` field populated, the measured
execution time, an empty responses list, the empty test case, and the
handler's default analysis, whose `model` is exactly the fallback of the
returned test case's declared model to `"unspecified"`.  The shared
default token-usage dict is left untouched. -/
theorem c7_exception_result (jsonLoads : String → Option ResponseItem)
    (scorer : String → String → Bool) (tu0 : TokenUsage)
    (app_name : String) (cfg : Bool) (e : String) (elapsed : ℚ) :
    (async_process_app jsonLoads scorer tu0 app_name cfg (.error e)
      elapsed).1.success = false
  ∧ (async_process_app jsonLoads scorer tu0 app_name cfg (.error e)
      elapsed).1.error = some e
  ∧ (async_process_app jsonLoads scorer tu0 app_name cfg (.error e)
      elapsed).1.execution_time = elapsed
  ∧ (async_process_app jsonLoads scorer tu0 app_name cfg (.error e)
      elapsed).1.responses = []
  ∧ (async_process_app jsonLoads scorer tu0 app_name cfg (.error e)
      elapsed).1.test_case = emptyTestCase
  ∧ (async_process_app jsonLoads scorer tu0 app_name cfg (.error e)
      elapsed).1.analysis = .failed error_analysis
  ∧ error_analysis.model
      = ((async_process_app jsonLoads scorer tu0 app_name cfg (.error e)
          elapsed).1.test_case.model).getD "unspecified"
  ∧ (async_process_app jsonLoads scorer tu0 app_name cfg (.error e)
      elapsed).2 = tu0 :=
  ⟨rfl, rfl, rfl, rfl, rfl, rfl, rfl, rfl⟩

/-- Claim C8 (confirmed): in streaming collection, firing of the
wall-clock timeout changes nothing about the returned run result — every
event parsed from the lines that arrived before the deadline is
retained, and the result's success is computed normally by the analyzer
from those events; in particular a child that emits one valid event line
and then sleeps past the timeout yields a run result containing exactly
that event. -/
theorem c8_timeout_retention (jsonLoads : String → Option ResponseItem)
    (scorer : String → String → Bool) (tu0 : TokenUsage)
    (app_name : String) (arrived : List String) (ns stde : String)
    (rc : Int) (tc : TestCase) (elapsed : ℚ) :
    (async_process_app jsonLoads scorer tu0 app_name true
        (.ok ⟨arrived, true, ns, stde, rc, tc⟩) elapsed
      = async_process_app jsonLoads scorer tu0 app_name true
        (.ok ⟨arrived, false, ns, stde, rc, tc⟩) elapsed)
  ∧ (async_process_app jsonLoads scorer tu0 app_name true
        (.ok ⟨arrived, true, ns, stde, rc, tc⟩) elapsed).1.responses
      = streamParse jsonLoads arrived
  ∧ (async_process_app jsonLoads scorer tu0 app_name true
        (.ok ⟨arrived, true, ns, stde, rc, tc⟩) elapsed).1.success
      = (analyze_responses scorer tu0 (streamParse jsonLoads arrived)
          tc).1.success
  ∧ (∀ line ev, arrived = [line] → pyStrip line ≠ "" →
      jsonLoads (pyStrip line) = some ev →
      (async_process_app jsonLoads scorer tu0 app_name true
        (.ok ⟨arrived, true, ns, stde, rc, tc⟩) elapsed).1.responses = [ev]) := by
  refine ⟨rfl, rfl, rfl, ?_⟩
  intro line ev hl hb hj
  subst hl
  show streamParse jsonLoads [line] = [ev]
  unfold streamParse
  simp only [List.filterMap_cons, List.filterMap_nil]
  rw [if_neg hb, hj]

/-- Concrete raw stdout line for the C8 witness (with its trailing
newline, as delivered by `readline`). -/
def c8_line : String := "\x7b\"model\":\"m\"\x7d\n"

/-- The event the C8 witness decoder produces for that line. -/
def c8_event : ResponseItem := .obj { model := some "m" }

/-- Concrete decoder for the C8 witness. -/
def c8_decode : String → Option ResponseItem := fun s =>
  if s = pyStrip c8_line then some c8_event else none

/-- Witness for C8: one valid event line followed by a timeout still
yields a run result containing exactly that event. -/
theorem c8_timeout_retention_witness :
    (async_process_app c8_decode substring_scorer ⟨0, 0⟩ "app" true
      (.ok ⟨[c8_line], true, "", "", 0, emptyTestCase⟩) 1).1.responses
      = [c8_event] :=
  (c8_timeout_retention c8_decode substring_scorer ⟨0, 0⟩ "app" [c8_line]
      "" "" 0 emptyTestCase 1).2.2.2 c8_line c8_event rfl (by decide) (by decide)

/-- Concrete single event carrying only a usage object, as produced by a
non-streaming run. -/
def c9_usage_event : ResponseItem := .obj { usage := some ⟨10, 5⟩ }

/-- Claim C9 is contradicted by the code (a defect): `_analyze_responses`
is not a pure function of its inputs.  `DEFAULT_ANALYSIS.copy()` is a
shallow copy, so the non-streaming branch's in-place writes
`analysis["token_usage"]["prompt"] = ...` mutate the shared
`DEFAULT_ANALYSIS["token_usage"]` dict.  Threading that shared cell
explicitly: a first call on an empty event list reports token usage
`{0, 0}`; an interleaved call on a non-streaming usage-bearing event
list writes `{10, 5}` into the shared cell; a third call on the *same*
inputs as the first then reports `{10, 5}`, so two invocations with
equal event lists and equal test cases (no semantic expectation, scorer
never consulted) return different analyses. -/
theorem c9_mutation_defect :
    (analyze_responses substring_scorer ⟨0, 0⟩ [] emptyTestCase).1.token_usage
      = ⟨0, 0⟩
  ∧ (analyze_responses substring_scorer
      (analyze_responses substring_scorer ⟨0, 0⟩ [] emptyTestCase).2
      [c9_usage_event] emptyTestCase).2 = ⟨10, 5⟩
  ∧ (analyze_responses substring_scorer
      (analyze_responses substring_scorer
        (analyze_responses substring_scorer ⟨0, 0⟩ [] emptyTestCase).2
        [c9_usage_event] emptyTestCase).2
      [] emptyTestCase).1.token_usage = ⟨10, 5⟩
  ∧ (analyze_responses substring_scorer
      (analyze_responses substring_scorer
        (analyze_responses substring_scorer ⟨0, 0⟩ [] emptyTestCase).2
        [c9_usage_event] emptyTestCase).2
      [] emptyTestCase).1
    ≠ (analyze_responses substring_scorer ⟨0, 0⟩ [] emptyTestCase).1 := by
  refine ⟨by decide, by decide, by decide, ?_⟩
  intro h
  exact absurd (congrArg Analysis.token_usage h) (by decide)
